import Mathlib

/-!
Verification development for the YTDownloader repository
(a FastAPI script, src/app.py, and a Flask script, src/app1.py, both
wrapping the external yt-dlp extraction capability).

The Python code is shallowly embedded: dictionaries returned by the
extraction capability become structures with Option-valued fields
(none models an absent key), Python truthiness is made explicit,
the external extraction capability is a function parameter of the
request handlers, and the on-disk cookies artifact of a request is
tracked as an explicit Boolean component of each handler result.
-/

/-- Truthiness of an optional Python string: a missing key and the
empty string are falsy, every other string is truthy. -/
def truthyS : Option String → Bool
  | none => false
  | some s => decide (s ≠ "")

/-- Truthiness of an optional Python number: a missing key and zero
are falsy. -/
def truthyN : Option Nat → Bool
  | none => false
  | some n => decide (n ≠ 0)

/-- Python expression a or b on two optional strings: the first
operand wins when it is truthy, otherwise the second is returned. -/
def pyOrS (a b : Option String) : Option String :=
  if truthyS a then a else b

/-- Python expression a or b on two optional numbers. -/
def pyOrN (a b : Option Nat) : Option Nat :=
  if truthyN a then a else b

/-- Embedding of Python str.split followed by taking element 0:
everything before the first newline. -/
def firstLine (s : String) : String :=
  (s.toList.takeWhile (fun c => c != '\n')).asString

/-- Occurrence test of a character pattern inside a character list,
embedding the Python in operator on strings. -/
def containsSubChars (pat : List Char) : List Char → Bool
  | [] => pat.isPrefixOf []
  | c :: rest => pat.isPrefixOf (c :: rest) || containsSubChars pat rest

/-- Embedding of the Python expression pat in s for strings. -/
def containsSub (s pat : String) : Bool :=
  containsSubChars pat.toList s.toList

/-- Fuel-indexed replacement of every non-overlapping occurrence of a
pattern, scanning left to right, embedding Python str.replace. The
fuel is instantiated with the length of the scanned list, which
suffices because every step consumes at least one character. -/
def replaceAllAux (pat rep : List Char) : Nat → List Char → List Char
  | 0, l => l
  | _ + 1, [] => []
  | fuel + 1, c :: rest =>
    if pat.isPrefixOf (c :: rest) && !pat.isEmpty then
      rep ++ replaceAllAux pat rep fuel (rest.drop (pat.length - 1))
    else
      c :: replaceAllAux pat rep fuel rest

/-- Embedding of Python str.replace on strings. -/
def replaceAllStr (s pat rep : String) : String :=
  (replaceAllAux pat.toList rep.toList s.toList.length s.toList).asString

/-- Embedding of Python str.strip on a character list: whitespace is
removed from both ends. -/
def pyStrip (l : List Char) : List Char :=
  ((l.dropWhile Char.isWhitespace).reverse.dropWhile Char.isWhitespace).reverse

/-- Embedding of Python str.strip on strings. -/
def pyStripStr (s : String) : String :=
  (pyStrip s.toList).asString

/-- Embedding of Python str.startswith. -/
def pyStartswith (s pre : String) : Bool :=
  pre.toList.isPrefixOf s.toList

/-- One raw format dictionary of the metadata document returned by the
extraction capability; a field holding none models an absent key.
The quality field is handled string-like by src/app.py, so it is
embedded as an optional string. -/
structure RawFormat where
  format_id : Option String := none
  ext : Option String := none
  url : Option String := none
  vcodec : Option String := none
  acodec : Option String := none
  format_note : Option String := none
  quality : Option String := none
  height : Option Nat := none
  mime_type : Option String := none
  abr : Option Nat := none
  filesize : Option Nat := none
  filesize_approx : Option Nat := none
deriving DecidableEq

/-- The metadata document returned by the extraction capability, with
the claim-relevant keys (title and the format list modelled fully;
uploader and duration carried through unchanged). The formats field
is optional because src/app.py line 104 distinguishes an absent key,
whose lookup default is a list holding one empty dictionary, from a
present empty list, whose element 0 raises an IndexError. -/
structure Info where
  title : Option String := none
  uploader : Option String := none
  duration : Option Nat := none
  formats : Option (List RawFormat) := none
deriving DecidableEq

/-- The yt-dlp option fields the claims depend on: the format selector
and whether a cookiefile path was attached. -/
structure YdlOpts where
  format : Option String := none
  cookiefile : Bool := false
deriving DecidableEq

/-- BASE_YDL_OPTS of src/app1.py, restricted to the claim-relevant
fields. -/
def BASE_YDL_OPTS : YdlOpts :=
  { format := some "bestvideo+bestaudio/best", cookiefile := false }

/-- YDL_OPTS_INFO of src/app.py, restricted to the claim-relevant
fields. -/
def YDL_OPTS_INFO : YdlOpts :=
  { format := some "bestvideo[ext=mp4]+bestaudio[ext=m4a]/best", cookiefile := false }

/-- Outcome of one call to the external extraction capability:
extract_info returns an info dictionary (possibly None), raises a
DownloadError, or raises some other exception carrying a type name
and a message. -/
inductive ExtractOutcome where
  | success (info : Option Info)
  | downloadErr (msg : String)
  | unexpectedErr (typeName : String) (msg : String)
deriving DecidableEq

/-- The external extraction capability, abstracted as a function from
the url and the options to an outcome. -/
def Probe : Type := String → YdlOpts → ExtractOutcome

/-- One client-facing format descriptor of the normalized catalog. -/
structure FormatDescriptor where
  itag : Option String
  container : Option String
  qualityLabel : String
  hasVideo : Bool
  hasAudio : Bool
  mimeType : String
  bitrate : Option Nat
deriving DecidableEq

/-- The normalized MediaInfo response body of the get-info routes. -/
structure MediaInfo where
  title : Option String
  author : Option String
  lengthSeconds : Option Nat
  formats : List FormatDescriptor
deriving DecidableEq

/-- Filter applied to raw formats by every get-info route: the url
key must be truthy and at least one of the two codec keys must differ
from the literal none marker (src/app.py line 51, src/app1.py lines
87 and 146). -/
def keepFormat (f : RawFormat) : Bool :=
  truthyS f.url && (decide (f.vcodec ≠ some "none") || decide (f.acodec ≠ some "none"))

/-- Quality label derivation of src/app.py lines 52 to 59: format_note
or quality, then a replacement of the substring -DASH followed by a
strip whenever the label contains DASH, then a fallback to the literal
Unknown when the label is falsy. -/
def qualityLabelApp (f : RawFormat) : String :=
  let ql := pyOrS f.format_note f.quality
  let ql :=
    if truthyS ql && containsSub (ql.getD "") "DASH" then
      some (pyStripStr (replaceAllStr (ql.getD "") "-DASH" ""))
    else ql
  if truthyS ql then ql.getD "" else "Unknown"

/-- Quality label derivation of src/app1.py lines 88 and 147:
format_note, else the height rendered with a p suffix when the height
is truthy, else the literal N/A. -/
def qualityLabelApp1 (f : RawFormat) : String :=
  if truthyS f.format_note then f.format_note.getD ""
  else if truthyN f.height then toString (f.height.getD 0) ++ "p"
  else "N/A"

/-- Descriptor built by src/app.py lines 56 to 64 for one raw format
that passed the filter. -/
def toDescriptorApp (f : RawFormat) : FormatDescriptor :=
  { itag := f.format_id
    container := f.ext
    qualityLabel := qualityLabelApp f
    hasVideo := decide (f.vcodec ≠ some "none")
    hasAudio := decide (f.acodec ≠ some "none")
    mimeType := f.mime_type.getD ""
    bitrate := f.abr }

/-- Descriptor built by src/app1.py lines 89 to 97 and 148 to 156 for
one raw format that passed the filter. -/
def toDescriptor1 (f : RawFormat) : FormatDescriptor :=
  { itag := f.format_id
    container := f.ext
    qualityLabel := qualityLabelApp1 f
    hasVideo := decide (f.vcodec ≠ some "none")
    hasAudio := decide (f.acodec ≠ some "none")
    mimeType := f.mime_type.getD ""
    bitrate := f.abr }

/-- Format catalog of the src/app.py get-info route. -/
def formatsApp (raw : List RawFormat) : List FormatDescriptor :=
  (raw.filter keepFormat).map toDescriptorApp

/-- Format catalog of the src/app1.py get-info routes. -/
def simplifiedFormats1 (raw : List RawFormat) : List FormatDescriptor :=
  (raw.filter keepFormat).map toDescriptor1

/-- Response body built by the src/app.py get-info route from a
successfully extracted info document. -/
def normalizeApp (info : Info) : MediaInfo :=
  { title := info.title
    author := info.uploader
    lengthSeconds := info.duration
    formats := formatsApp (info.formats.getD []) }

/-- Response body built by the src/app1.py get-info routes from a
successfully extracted info document. -/
def normalize1 (info : Info) : MediaInfo :=
  { title := info.title
    author := info.uploader
    lengthSeconds := info.duration
    formats := simplifiedFormats1 (info.formats.getD []) }

/-- The right single quotation mark appearing inside one of the
restriction markers of src/app1.py line 37. -/
def rsq : String := (Char.ofNat 8217).toString

/-- Restriction markers matched by handle_ydl_error in src/app1.py
line 37. -/
def restrictedMarkers : List String :=
  ["Sign in", "confirm you" ++ rsq ++ "re not a bot", "Login required",
   "This video is age restricted"]

/-- Test whether any restriction marker occurs in a message. -/
def containsAnyMarker (m : String) : Bool :=
  restrictedMarkers.any (fun p => containsSub m p)

/-- User-facing message returned for restricted content by
handle_ydl_error in src/app1.py line 38. -/
def restrictedDetail : String :=
  "This video is restricted and requires a cookies.txt (user-provided) to access."

/-- Error classifier handle_ydl_error of src/app1.py lines 34 to 41:
the first line of the failure text is matched against the restriction
markers, then against the unsupported-URL marker, and every other
failure is wrapped in a generic message carrying that first line. -/
def handle_ydl_error (e : String) : String :=
  let msg := firstLine e
  if containsAnyMarker msg then restrictedDetail
  else if containsSub msg "Unsupported URL" then "Unsupported URL. Please check the link."
  else "Failed to process video: " ++ msg

/-- Response produced by a src/app1.py route: a JSON error body with a
status code, a MediaInfo body, or a redirect carrying a location, a
content-disposition header, and an optional content-length header.
The unparsable marker stands for a statement of the source that is
not syntactically valid Python and therefore has no executable
semantics: src/app1.py line 102 is an unterminated string literal, so
the module as a whole fails to parse. -/
inductive Resp where
  | json (status : Nat) (detail : String)
  | minfo (status : Nat) (m : MediaInfo)
  | redirect (status : Nat) (location : String)
      (contentDisposition : String) (contentLength : Option String)
  | unparsable
deriving DecidableEq

/-- Response produced by a src/app.py route: an HTTPException with a
status code and detail, a MediaInfo body, or the streaming response
of the download route, carrying the upstream location its body relays
together with the content-disposition, content-type, and
content-length headers. -/
inductive FResp where
  | err (status : Nat) (detail : String)
  | minfo (m : MediaInfo)
  | stream (location : String) (contentDisposition : String)
      (contentType : String) (contentLength : String)
deriving DecidableEq

/-- Error formatting of src/app.py lines 73 to 82: the first line of
the failure text selects either the explicit sign-in detail or a
generic wrapper, always with status 500. -/
def classifyApp (emsg : String) : FResp :=
  let m := firstLine emsg
  if containsSub m "Sign in to confirm" then
    FResp.err 500 "Video requires sign-in (e.g., age-gated). Your server cannot access it without a cookie session."
  else
    FResp.err 500 ("Failed to fetch video info: " ++ m)

/-- Handler of GET /get-info in src/app.py lines 36 to 82. The second
component records whether the external extraction capability was
invoked. The URL check is a bare startswith http test. -/
def get_info_app (url : String) (probe : Probe) : FResp × Bool :=
  if !(pyStartswith url "http") then
    (FResp.err 400 "Invalid URL format", false)
  else
    let r :=
      match probe url YDL_OPTS_INFO with
      | ExtractOutcome.success none =>
        classifyApp "No video information could be extracted. It might be private, deleted, or age-gated."
      | ExtractOutcome.success (some info) => FResp.minfo (normalizeApp info)
      | ExtractOutcome.downloadErr m => classifyApp m
      | ExtractOutcome.unexpectedErr _ m => classifyApp m
    (r, true)

/-- Handler of GET /get-info in src/app1.py lines 68 to 112, read as
a hand trace of the handler text. The second component records
whether the external extraction capability was invoked. Only presence
of the url parameter is checked. The response construction of the
success path, src/app1.py line 102, is an unterminated string
literal: src/app1.py fails to parse, so the route can never produce
its 200 catalog response; the success branch is therefore the
unparsable marker, not a MediaInfo body. -/
def get_info_get (url : Option String) (probe : Probe) : Resp × Bool :=
  if !(truthyS url) then
    (Resp.json 400 "Missing \x27url\x27 parameter.", false)
  else
    let r :=
      match probe (url.getD "") BASE_YDL_OPTS with
      | ExtractOutcome.success none => Resp.json 500 "Server error: Exception"
      | ExtractOutcome.success (some _) => Resp.unparsable
      | ExtractOutcome.downloadErr m => Resp.json 400 (handle_ydl_error m)
      | ExtractOutcome.unexpectedErr n _ => Resp.json 500 ("Server error: " ++ n)
    (r, true)

/-- Handler of POST /get-info in src/app1.py lines 115 to 178. The
hasCookies flag states that the request carries a cookies upload; the
cookieSaveOk flag states that writing the upload into the temp file
created by tempfile.NamedTemporaryFile(delete=False) succeeded. When
the write raises, _use_temp_cookies_file re-raises after closing the
handle, the handler answers through its generic exception clause, and
the finally clause deletes nothing because cookies_path was never
assigned; the file created on disk therefore survives the request.
The second component of the result is whether the on-disk cookies
artifact still exists after the handler returns. -/
def get_info_post (url : Option String) (hasCookies cookieSaveOk : Bool)
    (probe : Probe) : Resp × Bool :=
  if !(truthyS url) then
    (Resp.json 400 "Missing \x27url\x27 parameter in form data.", false)
  else
    let artifactOnDisk := hasCookies
    let cookiesPath := hasCookies && cookieSaveOk
    let r :=
      if hasCookies && !cookieSaveOk then
        Resp.json 500 "Server error: OSError"
      else
        match probe (url.getD "") { BASE_YDL_OPTS with cookiefile := cookiesPath } with
        | ExtractOutcome.success none => Resp.json 500 "Server error: Exception"
        | ExtractOutcome.success (some info) => Resp.minfo 200 (normalize1 info)
        | ExtractOutcome.downloadErr m => Resp.json 400 (handle_ydl_error m)
        | ExtractOutcome.unexpectedErr n _ => Resp.json 500 ("Server error: " ++ n)
    (r, if cookiesPath && artifactOnDisk then false else artifactOnDisk)

/-- Filename sanitizer of src/app1.py line 217 at character level:
keep alphanumerics, space, underscore, and hyphen, strip the ends,
then map the remaining spaces to underscores. -/
def keep1 (c : Char) : Bool :=
  c.isAlphanum || c == ' ' || c == '_' || c == '-'

/-- Character-level body of the src/app1.py sanitizer. -/
def sanitize1Chars (l : List Char) : List Char :=
  (pyStrip (l.filter keep1)).map (fun c => if c == ' ' then '_' else c)

/-- Filename sanitizer of src/app1.py line 217. -/
def sanitize1 (t : String) : String :=
  (sanitize1Chars t.toList).asString

/-- Filename sanitizer of src/app.py line 110: the four characters
slash, backslash, double quote, and single quote are each replaced by
an underscore; every other character is kept unchanged. -/
def sanitizeApp (t : String) : String :=
  replaceAllStr (replaceAllStr (replaceAllStr (replaceAllStr t "/" "_")
    "\x5c" "_") "\x22" "_") "\x27" "_"

/-- Handler of POST /download in src/app1.py lines 181 to 240. The
probe is invoked with the format selector set to exactly the
requested itag; the chosen entry is the first raw format whose
format_id equals the itag; a missing entry and a missing url produce
the same 404 response; the redirect carries the sanitized filename.
Cookies handling and the artifact component follow get_info_post. -/
def download_post (url itag fileType : Option String)
    (hasCookies cookieSaveOk : Bool) (probe : Probe) : Resp × Bool :=
  if !(truthyS url) || !(truthyS itag) then
    (Resp.json 400 "Missing required parameters (url, itag).", false)
  else
    let artifactOnDisk := hasCookies
    let cookiesPath := hasCookies && cookieSaveOk
    let r :=
      if hasCookies && !cookieSaveOk then
        Resp.json 500 "Server error: OSError"
      else
        match probe (url.getD "")
            { BASE_YDL_OPTS with format := some (itag.getD ""), cookiefile := cookiesPath } with
        | ExtractOutcome.success none => Resp.json 500 "Server error: AttributeError"
        | ExtractOutcome.success (some info) =>
          match (info.formats.getD []).find? (fun f => decide (f.format_id = some (itag.getD ""))) with
          | none => Resp.json 404 "Stream URL not found for the selected format."
          | some chosen =>
            if !(truthyS chosen.url) then
              Resp.json 404 "Stream URL not found for the selected format."
            else
              let title := info.title.getD "video"
              let safeTitle := sanitize1 title
              let extension := if fileType == some "mp3" then "mp3" else chosen.ext.getD "mp4"
              let filename := safeTitle ++ "." ++ extension
              let sizeVal := pyOrN chosen.filesize chosen.filesize_approx
              let clen := if truthyN sizeVal then some (toString (sizeVal.getD 0)) else none
              Resp.redirect 302 (chosen.url.getD "")
                ("attachment; filename=\x22" ++ filename ++ "\x22") clen
        | ExtractOutcome.downloadErr m => Resp.json 400 (handle_ydl_error m)
        | ExtractOutcome.unexpectedErr n _ => Resp.json 500 ("Server error: " ++ n)
    (r, if cookiesPath && artifactOnDisk then false else artifactOnDisk)

/-- Handler of GET /download in src/app.py lines 85 to 146. The URL
check is the same bare startswith http test as on get-info; the
options are a copy of YDL_OPTS_INFO with the format selector set to
exactly the requested itag, and the probe is invoked at download
time. The chosen entry is element 0 of the formats list with no id
matching: an absent formats key defaults to a list holding one empty
dictionary, while a present empty list raises an IndexError whose
text is caught by the generic exception clause. The
HTTPException(404) raised for a missing stream url is itself caught
by that same clause, Starlette rendering the exception text as the
status code, a colon and the detail, so the failure surfaces as a 500
beginning with Download failed. A success returns the streaming
response relaying the stream url. The second component records
whether the extraction capability was invoked. -/
def download (url itag ty : String) (probe : Probe) : FResp × Bool :=
  if !(pyStartswith url "http") then
    (FResp.err 400 "Invalid URL format", false)
  else
    let r :=
      match probe url { YDL_OPTS_INFO with format := some itag } with
      | ExtractOutcome.success none =>
        FResp.err 500 ("Download failed: " ++
          firstLine "Could not extract video information for the specified format.")
      | ExtractOutcome.success (some info) =>
        match info.formats.getD [{}] with
        | [] => FResp.err 500 "Download failed: list index out of range"
        | chosen :: _ =>
          if !(truthyS chosen.url) then
            FResp.err 500 "Download failed: 404: Stream URL not found for the selected format."
          else
            let title := sanitizeApp (info.title.getD "video")
            let extension := if ty == "mp3" then "mp3" else chosen.ext.getD "mp4"
            let contentType :=
              if ty == "mp3" then "audio/mpeg"
              else if truthyS chosen.mime_type then chosen.mime_type.getD ""
              else "video/mp4"
            let filename := title ++ "." ++ extension
            let clen :=
              if truthyN chosen.filesize then toString (chosen.filesize.getD 0)
              else
                match chosen.filesize_approx with
                | some v => toString v
                | none => ""
            FResp.stream (chosen.url.getD "")
              ("attachment; filename=\x22" ++ filename ++ "\x22") contentType clen
      | ExtractOutcome.downloadErr m => FResp.err 500 ("Download failed: " ++ firstLine m)
      | ExtractOutcome.unexpectedErr _ m => FResp.err 500 ("Download failed: " ++ firstLine m)
    (r, true)

/-- Chunk size used by iterfile in src/app.py line 130. -/
def CHUNK_SIZE : Nat := 16384

/-- Fuel-indexed splitting of a payload into consecutive chunks of at
most n elements, embedding requests iter_content with chunk_size n.
The fuel is instantiated with the payload length, which suffices
because every step consumes at least one element when n is positive. -/
def chunksOfAux (n : Nat) : Nat → List Nat → List (List Nat)
  | 0, _ => []
  | _ + 1, [] => []
  | fuel + 1, c :: rest =>
    (c :: rest).take n :: chunksOfAux n fuel ((c :: rest).drop n)

/-- Chunk sequence produced by iter_content over a byte payload. -/
def iter_content (payload : List Nat) : List (List Nat) :=
  chunksOfAux CHUNK_SIZE payload.length payload

/-- Chunk sequence yielded by iterfile in src/app.py lines 129 to 138:
every chunk of iter_content that is truthy, that is non-empty, is
yielded to the client as it arrives. -/
def iterfile (payload : List Nat) : List (List Nat) :=
  (iter_content payload).filter (fun c => !c.isEmpty)

/-- Modelled from the spec: a well-formed absolute URL with an HTTP or
HTTPS scheme, used only to compare the validation mandated by the spec
with the validation the code performs; the repository contains no
such parser. -/
def specWellFormedHttpUrl (s : String) : Bool :=
  (pyStartswith s "http://" && decide (7 < s.length)) ||
  (pyStartswith s "https://" && decide (8 < s.length))

/-- Claim C1 (code_bug evidence): the on-disk cookies artifact is NOT
deleted on every exit path. When the request supplies a cookies upload
and writing the upload into the temp file raises, both POST handlers
answer through their generic exception clause while the temp file
created by tempfile.NamedTemporaryFile(delete=False) survives the
request, because cookies_path was never assigned and the finally
clause therefore skips the deletion. On every path on which the write
succeeds the artifact is deleted, whatever the probe outcome. -/
theorem c1_cookie_artifact_leak :
    (get_info_post (some "http://v") true false
      (fun _ _ => ExtractOutcome.success none)).2 = true ∧
    (download_post (some "http://v") (some "22") none true false
      (fun _ _ => ExtractOutcome.success none)).2 = true ∧
    (∀ (url : Option String) (probe : Probe),
      (get_info_post url true true probe).2 = false) ∧
    (∀ (url itag ft : Option String) (probe : Probe),
      (download_post url itag ft true true probe).2 = false) := by
  refine ⟨rfl, rfl, ?_, ?_⟩
  · intro url probe
    by_cases h : truthyS url <;> simp [get_info_post, h]
  · intro url itag ft probe
    by_cases hu : truthyS url <;> by_cases hi : truthyS itag <;>
      simp [download_post, hu, hi]

/-- Claim C2: every descriptor in either catalog has hasVideo or
hasAudio true and derives from a raw entry with a truthy url field,
and raw entries failing the filter contribute nothing. -/
theorem c2_catalog_invariant :
    ∀ raw : List RawFormat,
      (∀ d ∈ simplifiedFormats1 raw, (d.hasVideo || d.hasAudio) = true ∧
        ∃ f ∈ raw, truthyS f.url = true ∧ toDescriptor1 f = d) ∧
      (∀ d ∈ formatsApp raw, (d.hasVideo || d.hasAudio) = true ∧
        ∃ f ∈ raw, truthyS f.url = true ∧ toDescriptorApp f = d) ∧
      ((∀ f ∈ raw, keepFormat f = false) →
        simplifiedFormats1 raw = [] ∧ formatsApp raw = []) := by
  intro raw
  refine ⟨?_, ?_, ?_⟩
  · intro d hd
    simp only [simplifiedFormats1, List.mem_map, List.mem_filter] at hd
    obtain ⟨f, ⟨hfraw, hkeep⟩, rfl⟩ := hd
    have h2 := hkeep
    simp only [keepFormat, Bool.and_eq_true] at h2
    exact ⟨by simpa [toDescriptor1] using h2.2, f, hfraw, h2.1, rfl⟩
  · intro d hd
    simp only [formatsApp, List.mem_map, List.mem_filter] at hd
    obtain ⟨f, ⟨hfraw, hkeep⟩, rfl⟩ := hd
    have h2 := hkeep
    simp only [keepFormat, Bool.and_eq_true] at h2
    exact ⟨by simpa [toDescriptorApp] using h2.2, f, hfraw, h2.1, rfl⟩
  · intro h
    have hnil : raw.filter keepFormat = [] := by
      rw [List.filter_eq_nil_iff]
      intro f hf
      simp [h f hf]
    constructor <;> simp [simplifiedFormats1, formatsApp, hnil]

/-- Witness for C2 at a concrete one-element raw list. -/
theorem c2_catalog_invariant_witness :
    ((toDescriptor1 { url := some "u", vcodec := some "avc1" }).hasVideo ||
      (toDescriptor1 { url := some "u", vcodec := some "avc1" }).hasAudio) = true ∧
    ∃ f ∈ [({ url := some "u", vcodec := some "avc1" } : RawFormat)],
      truthyS f.url = true ∧
      toDescriptor1 f = toDescriptor1 { url := some "u", vcodec := some "avc1" } :=
  (c2_catalog_invariant [{ url := some "u", vcodec := some "avc1" }]).1
    (toDescriptor1 { url := some "u", vcodec := some "avc1" }) (by decide)

/-- Claim C3 counterexample: inputs that are not well-formed absolute
HTTP(S) URLs reach the external extraction capability in both the
Describe and the Fetch operations: httpgarbage passes the bare
startswith check of the src/app.py get-info and download handlers,
whose upstream-called flags are set and whose responses are not the
400 rejection, and not-a-url passes the presence-only checks of the
src/app1.py GET and download handlers, the latter answering with the
classification of the upstream failure it received. -/
theorem c3_validation_counterexample :
    specWellFormedHttpUrl "httpgarbage" = false ∧
    (get_info_app "httpgarbage"
      (fun _ _ => ExtractOutcome.downloadErr "Unsupported URL: httpgarbage")).2 = true ∧
    (get_info_app "httpgarbage"
      (fun _ _ => ExtractOutcome.downloadErr "Unsupported URL: httpgarbage")).1
      ≠ FResp.err 400 "Invalid URL format" ∧
    (download "httpgarbage" "22" "video"
      (fun _ _ => ExtractOutcome.downloadErr "Unsupported URL: httpgarbage")).2 = true ∧
    (download "httpgarbage" "22" "video"
      (fun _ _ => ExtractOutcome.downloadErr "Unsupported URL: httpgarbage")).1
      ≠ FResp.err 400 "Invalid URL format" ∧
    specWellFormedHttpUrl "not-a-url" = false ∧
    (get_info_get (some "not-a-url")
      (fun _ _ => ExtractOutcome.downloadErr "Unsupported URL: not-a-url")).2 = true ∧
    (download_post (some "not-a-url") (some "22") none false false
      (fun _ _ => ExtractOutcome.downloadErr "Unsupported URL: not-a-url")).1
      = Resp.json 400 (handle_ydl_error "Unsupported URL: not-a-url") := by
  refine ⟨rfl, rfl, by decide, rfl, by decide, rfl, rfl, rfl⟩

/-- Claim C3 amended: both files reject some malformed inputs with a
400 before any upstream call, but neither validates well-formedness
or the scheme. src/app.py rejects, in get-info and download alike,
exactly those URLs that do not start with http, and every URL
starting with http reaches the extraction capability. src/app1.py
rejects only missing or empty parameters: its GET handler then
invokes the extraction capability on any other input, and its
download handler, given truthy url and itag and a saved cookies
upload when one is present, answers with the classification of
whatever failure the invoked extraction capability raises. -/
theorem c3_amended_validation :
    (∀ (url : String) (probe : Probe),
      (pyStartswith url "http" = false →
        get_info_app url probe = (FResp.err 400 "Invalid URL format", false)) ∧
      (pyStartswith url "http" = true → (get_info_app url probe).2 = true)) ∧
    (∀ (url itag ty : String) (probe : Probe),
      (pyStartswith url "http" = false →
        download url itag ty probe = (FResp.err 400 "Invalid URL format", false)) ∧
      (pyStartswith url "http" = true → (download url itag ty probe).2 = true)) ∧
    (∀ (url : Option String) (probe : Probe),
      (truthyS url = false →
        get_info_get url probe = (Resp.json 400 "Missing \x27url\x27 parameter.", false)) ∧
      (truthyS url = true → (get_info_get url probe).2 = true)) ∧
    (∀ (url itag ft : Option String) (hc ok : Bool) (probe : Probe),
      ((truthyS url = false ∨ truthyS itag = false) →
        download_post url itag ft hc ok probe
          = (Resp.json 400 "Missing required parameters (url, itag).", false)) ∧
      (truthyS url = true → truthyS itag = true → (hc && !ok) = false →
        ∀ m, probe (url.getD "")
            { BASE_YDL_OPTS with format := some (itag.getD ""), cookiefile := hc && ok }
          = ExtractOutcome.downloadErr m →
        (download_post url itag ft hc ok probe).1 = Resp.json 400 (handle_ydl_error m))) := by
  refine ⟨?_, ?_, ?_, ?_⟩
  · intro url probe
    constructor <;> intro h <;> simp [get_info_app, h]
  · intro url itag ty probe
    constructor <;> intro h <;> simp [download, h]
  · intro url probe
    constructor <;> intro h <;> simp [get_info_get, h]
  · intro url itag ft hc ok probe
    constructor
    · intro h
      rcases h with h | h <;> simp [download_post, h]
    · intro hu hi hleak m hm
      simp [download_post, hu, hi, hleak, hm]

/-- Witness for the amended C3 at concrete inputs for all four
handlers. -/
theorem c3_amended_validation_witness :
    get_info_app "ftp://x" (fun _ _ => ExtractOutcome.success none)
      = (FResp.err 400 "Invalid URL format", false) ∧
    (download "httpxyz" "22" "video" (fun _ _ => ExtractOutcome.success none)).2 = true ∧
    (get_info_get (some "not-a-url")
      (fun _ _ => ExtractOutcome.success none)).2 = true ∧
    (download_post (some "not-a-url") (some "22") none false false
      (fun _ _ => ExtractOutcome.downloadErr "boom")).1
      = Resp.json 400 (handle_ydl_error "boom") :=
  ⟨(c3_amended_validation.1 "ftp://x" (fun _ _ => ExtractOutcome.success none)).1 (by decide),
   (c3_amended_validation.2.1 "httpxyz" "22" "video"
     (fun _ _ => ExtractOutcome.success none)).2 (by decide),
   (c3_amended_validation.2.2.1 (some "not-a-url")
     (fun _ _ => ExtractOutcome.success none)).2 (by decide),
   (c3_amended_validation.2.2.2 (some "not-a-url") (some "22") none false false
     (fun _ _ => ExtractOutcome.downloadErr "boom")).2
     (by decide) (by decide) (by decide) "boom" rfl⟩

/-- Claim C4 counterexample: in src/app1.py a probe whose catalog
lacks the requested itag and a probe whose matching entry carries no
url produce the very same 404 response, and in src/app.py the
missing-locator case surfaces as a generic 500 whose detail wraps the
swallowed HTTPException, so neither implementation lets the caller
tell FormatNotFound from SourceNotFound. -/
theorem c4_indistinct_counterexample :
    download_post (some "http://v") (some "zz") none false false
        (fun _ _ => ExtractOutcome.success
          (some { formats := some [{ format_id := some "22", url := some "http://u" }] }))
      = download_post (some "http://v") (some "zz") none false false
        (fun _ _ => ExtractOutcome.success
          (some { formats := some [{ format_id := some "zz" }] })) ∧
    (download_post (some "http://v") (some "zz") none false false
        (fun _ _ => ExtractOutcome.success
          (some { formats := some [{ format_id := some "22", url := some "http://u" }] }))).1
      = Resp.json 404 "Stream URL not found for the selected format." ∧
    (download "http://v" "zz" "video"
        (fun _ _ => ExtractOutcome.success
          (some { formats := some [{ format_id := some "zz" }] }))).1
      = FResp.err 500 "Download failed: 404: Stream URL not found for the selected format." :=
  ⟨rfl, rfl, rfl⟩

/-- Claim C4 amended: the two failure shapes are not distinguishable
in either Fetch implementation. In src/app1.py, whenever the fresh
probe succeeds and either no entry of its format list carries the
requested format id or the first matching entry has a falsy url, the
handler answers with the one shared 404 response. In src/app.py,
which never matches the id and takes element 0 of the scoped probe
result, a chosen entry without a url raises HTTPException(404) that
the handler's own generic exception clause swallows into a fixed 500,
and an unsatisfiable format id surfaces as whatever failure the
scoped probe raises, wrapped into a generic 500 as well. -/
theorem c4_amended_uniform_404 :
    (∀ (url itag ft : Option String) (hc ok : Bool) (probe : Probe) (info : Info),
      truthyS url = true → truthyS itag = true → (hc && !ok) = false →
      probe (url.getD "")
          { BASE_YDL_OPTS with format := some (itag.getD ""), cookiefile := hc && ok }
        = ExtractOutcome.success (some info) →
      ((info.formats.getD []).find?
          (fun f => decide (f.format_id = some (itag.getD ""))) = none ∨
        ∃ f, (info.formats.getD []).find?
            (fun f => decide (f.format_id = some (itag.getD ""))) = some f ∧
          truthyS f.url = false) →
      (download_post url itag ft hc ok probe).1
        = Resp.json 404 "Stream URL not found for the selected format.") ∧
    (∀ (url itag ty : String) (probe : Probe) (info : Info) (chosen : RawFormat)
      (rest : List RawFormat),
      pyStartswith url "http" = true →
      probe url { YDL_OPTS_INFO with format := some itag }
        = ExtractOutcome.success (some info) →
      info.formats.getD [{}] = chosen :: rest →
      truthyS chosen.url = false →
      (download url itag ty probe).1
        = FResp.err 500 "Download failed: 404: Stream URL not found for the selected format.") ∧
    (∀ (url itag ty m : String) (probe : Probe),
      pyStartswith url "http" = true →
      probe url { YDL_OPTS_INFO with format := some itag } = ExtractOutcome.downloadErr m →
      (download url itag ty probe).1 = FResp.err 500 ("Download failed: " ++ firstLine m)) := by
  refine ⟨?_, ?_, ?_⟩
  · intro url itag ft hc ok probe info hu hi hleak hprobe hcase
    simp only [download_post, hu, hi, hleak, hprobe, Bool.not_true, Bool.or_self,
      Bool.false_eq_true, if_false]
    rcases hcase with hnone | ⟨f, hfind, hurl⟩
    · simp [hnone]
    · simp [hfind, hurl]
  · intro url itag ty probe info chosen rest hs hprobe hlist hurl
    simp [download, hs, hprobe, hlist, hurl]
  · intro url itag ty m probe hs hprobe
    simp [download, hs, hprobe]

/-- Witness for the amended C4 at a concrete probe with an empty
catalog for src/app1.py and a url-less first entry for src/app.py. -/
theorem c4_amended_uniform_404_witness :
    (download_post (some "http://v") (some "zz") none false false
      (fun _ _ => ExtractOutcome.success (some { formats := some [] }))).1
      = Resp.json 404 "Stream URL not found for the selected format." ∧
    (download "http://v" "22" "video"
      (fun _ _ => ExtractOutcome.success
        (some { formats := some [{ format_id := some "22" }] }))).1
      = FResp.err 500 "Download failed: 404: Stream URL not found for the selected format." :=
  ⟨c4_amended_uniform_404.1 (some "http://v") (some "zz") none false false
    (fun _ _ => ExtractOutcome.success (some { formats := some [] }))
    { formats := some [] } (by decide) (by decide) (by decide) rfl (Or.inl rfl),
   c4_amended_uniform_404.2.1 "http://v" "22" "video"
    (fun _ _ => ExtractOutcome.success
      (some { formats := some [{ format_id := some "22" }] }))
    { formats := some [{ format_id := some "22" }] }
    { format_id := some "22" } [] (by decide) rfl rfl (by decide)⟩

/-- Claim C5: in both Fetch implementations, the locator handed to
the client comes from the outcome of the extraction capability
invoked at download time with the format selector set to exactly the
requested itag. Whenever the src/app1.py handler answers with a
redirect, the location is the url of the itag-matching entry of that
fresh outcome, and whenever the src/app.py handler answers with its
streaming relay, the relayed location is the url of the first entry
of that fresh outcome; neither handler has any other source of
locators, so no locator from an earlier catalog listing is reused. -/
theorem c5_fresh_scoped_locator :
    (∀ (url itag ft : Option String) (hc ok : Bool) (probe : Probe)
      (loc cd : String) (clen : Option String),
      (download_post url itag ft hc ok probe).1 = Resp.redirect 302 loc cd clen →
      ∃ info : Info,
        probe (url.getD "")
            { BASE_YDL_OPTS with format := some (itag.getD ""), cookiefile := hc && ok }
          = ExtractOutcome.success (some info) ∧
        ∃ f ∈ info.formats.getD [], f.format_id = some (itag.getD "") ∧
          f.url = some loc ∧ loc ≠ "") ∧
    (∀ (url itag ty : String) (probe : Probe) (loc cd ctype clen : String),
      (download url itag ty probe).1 = FResp.stream loc cd ctype clen →
      ∃ info : Info,
        probe url { YDL_OPTS_INFO with format := some itag }
          = ExtractOutcome.success (some info) ∧
        ∃ chosen rest, info.formats.getD [{}] = chosen :: rest ∧
          chosen.url = some loc ∧ loc ≠ "") := by
  constructor
  · intro url itag ft hc ok probe loc cd clen h
    simp only [download_post] at h
    split at h
    · simp at h
    · split at h
      · simp at h
      · split at h
        case _ heq => simp at h
        case _ info heq =>
          split at h
          case _ hfind => simp at h
          case _ chosen hfind =>
            split at h
            · simp at h
            case _ hurl =>
              have hurl2 : truthyS chosen.url = true := by
                revert hurl
                cases truthyS chosen.url <;> simp
              obtain ⟨s, hs, hne⟩ : ∃ s, chosen.url = some s ∧ s ≠ "" := by
                cases hcu : chosen.url with
                | none => rw [hcu] at hurl2; simp [truthyS] at hurl2
                | some s =>
                  rw [hcu] at hurl2
                  simp only [truthyS, decide_eq_true_eq] at hurl2
                  exact ⟨s, rfl, hurl2⟩
              rcases h with ⟨⟩
              refine ⟨info, heq, chosen, List.mem_of_find?_eq_some hfind, ?_, ?_, ?_⟩
              · have := List.find?_some hfind
                simpa using this
              · simp [hs]
              · simp [hs, hne]
        case _ m heq => simp at h
        case _ n m heq => simp at h
  · intro url itag ty probe loc cd ctype clen h
    simp only [download] at h
    split at h
    · simp at h
    · split at h
      case _ heq => simp at h
      case _ info heq =>
        split at h
        case _ hlist => simp at h
        case _ chosen rest hlist =>
          split at h
          · simp at h
          case _ hurl =>
            have hurl2 : truthyS chosen.url = true := by
              revert hurl
              cases truthyS chosen.url <;> simp
            obtain ⟨s, hs, hne⟩ : ∃ s, chosen.url = some s ∧ s ≠ "" := by
              cases hcu : chosen.url with
              | none => rw [hcu] at hurl2; simp [truthyS] at hurl2
              | some s =>
                rw [hcu] at hurl2
                simp only [truthyS, decide_eq_true_eq] at hurl2
                exact ⟨s, rfl, hurl2⟩
            rcases h with ⟨⟩
            exact ⟨info, heq, chosen, rest, hlist, by simp [hs], by simp [hs, hne]⟩
      case _ m heq => simp at h
      case _ n m heq => simp at h

/-- Witness for C5 at concrete probes for both Fetch handlers. -/
theorem c5_fresh_scoped_locator_witness :
    (∃ info : Info,
      ExtractOutcome.success
          (some ({ title := some "My Video", formats := some [{ format_id := some "22", ext := some "mp4", url := some "http://locX" }] } : Info))
        = ExtractOutcome.success (some info) ∧
      ∃ f ∈ info.formats.getD [], f.format_id = some "22" ∧
        f.url = some "http://locX" ∧ "http://locX" ≠ "") ∧
    (∃ info : Info,
      ExtractOutcome.success
          (some ({ formats := some [{ format_id := some "22", ext := some "mp4", url := some "http://locY" }] } : Info))
        = ExtractOutcome.success (some info) ∧
      ∃ chosen rest, info.formats.getD [{}] = chosen :: rest ∧
        chosen.url = some "http://locY" ∧ "http://locY" ≠ "") :=
  ⟨c5_fresh_scoped_locator.1 (some "http://v") (some "22") none false false
    (fun _ _ => ExtractOutcome.success
      (some { title := some "My Video", formats := some [{ format_id := some "22", ext := some "mp4", url := some "http://locX" }] }))
    "http://locX" ("attachment; filename=\x22My_Video.mp4\x22") none (by decide),
   c5_fresh_scoped_locator.2 "http://v" "22" "video"
    (fun _ _ => ExtractOutcome.success
      (some { formats := some [{ format_id := some "22", ext := some "mp4", url := some "http://locY" }] }))
    "http://locY" ("attachment; filename=\x22video.mp4\x22") "video/mp4" "" (by decide)⟩

/-- Claim C10: in both Fetch implementations, when the fresh probe
succeeds with a document that has no title entry, the
content-disposition filename has base name video followed by a dot
and the chosen extension, the source container extension, or mp3 when
the mp3 target kind is requested. -/
theorem c10_default_basename :
    (∀ (url itag ft : Option String) (hc ok : Bool) (probe : Probe)
      (info : Info) (f : RawFormat) (ext0 : String),
      truthyS url = true → truthyS itag = true → (hc && !ok) = false →
      probe (url.getD "")
          { BASE_YDL_OPTS with format := some (itag.getD ""), cookiefile := hc && ok }
        = ExtractOutcome.success (some info) →
      info.title = none →
      (info.formats.getD []).find?
          (fun g => decide (g.format_id = some (itag.getD ""))) = some f →
      truthyS f.url = true → f.ext = some ext0 →
      (download_post url itag ft hc ok probe).1
        = Resp.redirect 302 (f.url.getD "")
            ("attachment; filename=\x22" ++
              ("video" ++ "." ++ (if ft == some "mp3" then "mp3" else ext0)) ++ "\x22")
            (if truthyN (pyOrN f.filesize f.filesize_approx) then
              some (toString ((pyOrN f.filesize f.filesize_approx).getD 0)) else none)) ∧
    (∀ (url itag ty : String) (probe : Probe) (info : Info) (chosen : RawFormat)
      (rest : List RawFormat) (ext0 : String),
      pyStartswith url "http" = true →
      probe url { YDL_OPTS_INFO with format := some itag }
        = ExtractOutcome.success (some info) →
      info.title = none →
      info.formats.getD [{}] = chosen :: rest →
      truthyS chosen.url = true →
      chosen.ext = some ext0 →
      ∃ ctype clen, (download url itag ty probe).1
        = FResp.stream (chosen.url.getD "")
            ("attachment; filename=\x22" ++
              ("video" ++ "." ++ (if ty == "mp3" then "mp3" else ext0)) ++ "\x22")
            ctype clen) := by
  constructor
  · intro url itag ft hc ok probe info f ext0 hu hi hleak hprobe htitle hfind hurl hext
    have hsan : sanitize1 "video" = "video" := by decide
    simp [download_post, hu, hi, hleak, hprobe, hfind, hurl, htitle, hsan, hext]
  · intro url itag ty probe info chosen rest ext0 hs hprobe htitle hlist hurl hext
    have hsan : sanitizeApp "video" = "video" := by decide
    refine ⟨if ty == "mp3" then "audio/mpeg"
        else if truthyS chosen.mime_type then chosen.mime_type.getD "" else "video/mp4",
      if truthyN chosen.filesize then toString (chosen.filesize.getD 0)
        else match chosen.filesize_approx with | some v => toString v | none => "", ?_⟩
    simp [download, hs, hprobe, hlist, hurl, htitle, hsan, hext]

/-- Witness for C10: probes without a title entry yield, in both
handlers, a filename that is video followed by the container
extension. -/
theorem c10_default_basename_witness :
    (download_post (some "http://v") (some "22") none false false
      (fun _ _ => ExtractOutcome.success
        (some { formats := some [{ format_id := some "22", ext := some "webm", url := some "http://L" }] }))).1
      = Resp.redirect 302 "http://L" "attachment; filename=\x22video.webm\x22" none ∧
    (∃ ctype clen, (download "http://v" "22" "video"
      (fun _ _ => ExtractOutcome.success
        (some { formats := some [{ format_id := some "22", ext := some "webm", url := some "http://L" }] }))).1
      = FResp.stream "http://L" "attachment; filename=\x22video.webm\x22" ctype clen) :=
  ⟨c10_default_basename.1 (some "http://v") (some "22") none false false
    (fun _ _ => ExtractOutcome.success
      (some { formats := some [{ format_id := some "22", ext := some "webm", url := some "http://L" }] }))
    { formats := some [{ format_id := some "22", ext := some "webm", url := some "http://L" }] }
    { format_id := some "22", ext := some "webm", url := some "http://L" } "webm"
    (by decide) (by decide) (by decide) rfl rfl (by decide) (by decide) rfl,
   c10_default_basename.2 "http://v" "22" "video"
    (fun _ _ => ExtractOutcome.success
      (some { formats := some [{ format_id := some "22", ext := some "webm", url := some "http://L" }] }))
    { formats := some [{ format_id := some "22", ext := some "webm", url := some "http://L" }] }
    { format_id := some "22", ext := some "webm", url := some "http://L" } [] "webm"
    (by decide) rfl rfl rfl (by decide) rfl⟩

/-- Membership in a dropWhile result implies membership in the list. -/
theorem mem_of_mem_dropWhile {p : Char → Bool} {c : Char} :
    ∀ {l : List Char}, c ∈ l.dropWhile p → c ∈ l := by
  intro l
  induction l with
  | nil => intro h; simp at h
  | cons a t ih =>
    intro h
    rw [List.dropWhile_cons] at h
    by_cases hp : p a = true
    · simp only [hp, if_true] at h
      exact List.mem_cons_of_mem a (ih h)
    · simpa [hp] using h

/-- Membership in a pyStrip result implies membership in the list. -/
theorem mem_of_mem_pyStrip {c : Char} {l : List Char} (h : c ∈ pyStrip l) : c ∈ l := by
  simp only [pyStrip, List.mem_reverse] at h
  have h1 := mem_of_mem_dropWhile h
  rw [List.mem_reverse] at h1
  exact mem_of_mem_dropWhile h1

/-- Every character of the sanitized output passed the keep filter and
is not a space. -/
theorem keep1_of_mem_sanitize {c : Char} {l : List Char} (h : c ∈ sanitize1Chars l) :
    keep1 c = true ∧ c ≠ ' ' := by
  simp only [sanitize1Chars, List.mem_map] at h
  obtain ⟨c0, hc0, rfl⟩ := h
  have hc0l : c0 ∈ l.filter keep1 := mem_of_mem_pyStrip hc0
  have hk : keep1 c0 = true := (List.mem_filter.mp hc0l).2
  by_cases hsp : (c0 == ' ') = true
  · refine ⟨?_, ?_⟩
    · rw [if_pos hsp]; decide
    · rw [if_pos hsp]; decide
  · rw [if_neg hsp]
    exact ⟨hk, by simpa using hsp⟩

/-- Alphanumeric characters are not whitespace. -/
theorem alnum_not_ws (c : Char) (h : c.isAlphanum = true) : c.isWhitespace = false := by
  by_contra hw
  rw [Bool.not_eq_false] at hw
  simp only [Char.isWhitespace, Bool.or_eq_true, decide_eq_true_eq] at hw
  rcases hw with ((h1 | h2) | h3) | h4
  · subst h1; exact absurd h (by decide)
  · subst h2; exact absurd h (by decide)
  · subst h3; exact absurd h (by decide)
  · subst h4; exact absurd h (by decide)

/-- Every character of the sanitized output is alphanumeric, an
underscore, or a hyphen. -/
theorem charset_of_mem_sanitize {c : Char} {l : List Char} (h : c ∈ sanitize1Chars l) :
    (c.isAlphanum || c == '_' || c == '-') = true := by
  obtain ⟨hk, hsp⟩ := keep1_of_mem_sanitize h
  simp only [keep1, Bool.or_eq_true, beq_iff_eq] at hk ⊢
  rcases hk with ((ha | h2) | h3) | h4
  · exact Or.inl (Or.inl ha)
  · exact absurd h2 hsp
  · exact Or.inl (Or.inr h3)
  · exact Or.inr h4

/-- No character of the sanitized output is whitespace. -/
theorem not_ws_of_mem_sanitize {c : Char} {l : List Char} (h : c ∈ sanitize1Chars l) :
    c.isWhitespace = false := by
  have hcs := charset_of_mem_sanitize h
  simp only [Bool.or_eq_true, beq_iff_eq] at hcs
  rcases hcs with (ha | hu) | hh
  · exact alnum_not_ws _ ha
  · subst hu; decide
  · subst hh; decide

/-- A dropWhile whose predicate fails on every element is the
identity. -/
theorem dropWhile_eq_self_of {p : Char → Bool} {l : List Char}
    (h : ∀ c ∈ l, p c = false) : l.dropWhile p = l := by
  cases l with
  | nil => rfl
  | cons a t => simp [List.dropWhile_cons, h a (List.mem_cons_self a t)]

/-- pyStrip is the identity on lists without whitespace. -/
theorem pyStrip_eq_self_of {l : List Char}
    (h : ∀ c ∈ l, c.isWhitespace = false) : pyStrip l = l := by
  unfold pyStrip
  rw [dropWhile_eq_self_of h,
    dropWhile_eq_self_of (fun c hc => h c (List.mem_reverse.mp hc)),
    List.reverse_reverse]

/-- A map whose function fixes every element is the identity. -/
theorem map_eq_self_of {f : Char → Char} {l : List Char}
    (h : ∀ c ∈ l, f c = c) : l.map f = l := by
  induction l with
  | nil => rfl
  | cons a t ih =>
    simp [h a (List.mem_cons_self a t),
      ih (fun c hc => h c (List.mem_cons_of_mem a hc))]

/-- The character-level sanitizer of src/app1.py is idempotent. -/
theorem sanitize1Chars_idem (l : List Char) :
    sanitize1Chars (sanitize1Chars l) = sanitize1Chars l := by
  have hfilter : (sanitize1Chars l).filter keep1 = sanitize1Chars l :=
    List.filter_eq_self.mpr (fun c hc => (keep1_of_mem_sanitize hc).1)
  have hstrip : pyStrip (sanitize1Chars l) = sanitize1Chars l :=
    pyStrip_eq_self_of (fun c hc => not_ws_of_mem_sanitize hc)
  have hmap : (sanitize1Chars l).map (fun c => if c == ' ' then '_' else c)
      = sanitize1Chars l := by
    apply map_eq_self_of
    intro c hc
    have hne := (keep1_of_mem_sanitize hc).2
    simp [hne]
  calc sanitize1Chars (sanitize1Chars l)
      = (pyStrip ((sanitize1Chars l).filter keep1)).map
          (fun c => if c == ' ' then '_' else c) := rfl
    _ = sanitize1Chars l := by rw [hfilter, hstrip, hmap]

/-- Claim C6 counterexample: the src/app.py sanitizer leaves the dot
and the space of the title unchanged, so its output is not restricted
to alphanumerics, underscores, and hyphens, and nothing is stripped. -/
theorem c6_sanitizer_counterexample :
    sanitizeApp "a.b c" = "a.b c" ∧
    ((sanitizeApp "a.b c").toList.all
      (fun c => c.isAlphanum || c == '_' || c == '-')) = false := by
  exact ⟨rfl, rfl⟩

/-- Claim C6 amended: the src/app1.py sanitizer is idempotent and its
output holds only alphanumerics, underscores, and hyphens, spaces
having been mapped to underscores and every other character stripped;
the src/app.py sanitizer does not have the charset property. -/
theorem c6_amended_sanitizer :
    ∀ t : String,
      sanitize1 (sanitize1 t) = sanitize1 t ∧
      ∀ c ∈ (sanitize1 t).toList, (c.isAlphanum || c == '_' || c == '-') = true := by
  intro t
  constructor
  · show (sanitize1Chars (sanitize1 t).toList).asString = sanitize1 t
    have h : (sanitize1 t).toList = sanitize1Chars t.toList := rfl
    rw [h, sanitize1Chars_idem]
    rfl
  · intro c hc
    have hc2 : c ∈ sanitize1Chars t.toList := hc
    exact charset_of_mem_sanitize hc2

/-- Witness for the amended C6 at a concrete title. -/
theorem c6_amended_sanitizer_witness :
    sanitize1 (sanitize1 "My Video!") = sanitize1 "My Video!" ∧
    ('M'.isAlphanum || 'M' == '_' || 'M' == '-') = true :=
  ⟨(c6_amended_sanitizer "My Video!").1,
   (c6_amended_sanitizer "My Video!").2 'M' (by decide)⟩

/-- Claim C7 counterexample: with no note and no height the src/app1.py
label is the literal N/A, not Unknown, and a note containing DASH
without the hyphenated form keeps its DASH substring in src/app.py,
so the fallback chain and the DASH stripping of the claim both fail. -/
theorem c7_label_counterexample :
    qualityLabelApp1 {} = "N/A" ∧ ("N/A" : String) ≠ "Unknown" ∧
    qualityLabelApp { format_note := some "DASH Video" } = "DASH Video" ∧
    containsSub "DASH Video" "DASH" = true := by
  refine ⟨rfl, by decide, by decide, by decide⟩

/-- Claim C7 amended: in src/app.py the chain is note, else the
generic quality marker, else the literal Unknown, with the first
truthy source winning; when the chosen label contains DASH, only
occurrences of the exact substring -DASH are removed and the result
is trimmed, falling back to Unknown when that empties the label, so a
label such as DASH Video keeps its DASH substring. In src/app1.py the
chain is note, else the height rendered with a p suffix when the
height is a nonzero number, else the literal N/A, with no DASH
handling at all. Both derivations are deterministic functions of the
raw entry and the format identifier is carried through untouched. -/
theorem c7_amended_label_chain :
    ∀ f : RawFormat,
      (truthyS f.format_note = true →
        containsSub (f.format_note.getD "") "DASH" = false →
        qualityLabelApp f = f.format_note.getD "") ∧
      (truthyS f.format_note = true →
        containsSub (f.format_note.getD "") "DASH" = true →
        qualityLabelApp f =
          (if pyStripStr (replaceAllStr (f.format_note.getD "") "-DASH" "") = ""
            then "Unknown"
            else pyStripStr (replaceAllStr (f.format_note.getD "") "-DASH" ""))) ∧
      (truthyS f.format_note = false → truthyS f.quality = true →
        containsSub (f.quality.getD "") "DASH" = false →
        qualityLabelApp f = f.quality.getD "") ∧
      (truthyS f.format_note = false → truthyS f.quality = true →
        containsSub (f.quality.getD "") "DASH" = true →
        qualityLabelApp f =
          (if pyStripStr (replaceAllStr (f.quality.getD "") "-DASH" "") = ""
            then "Unknown"
            else pyStripStr (replaceAllStr (f.quality.getD "") "-DASH" ""))) ∧
      (truthyS f.format_note = false → truthyS f.quality = false →
        qualityLabelApp f = "Unknown") ∧
      (truthyS f.format_note = true →
        qualityLabelApp1 f = f.format_note.getD "") ∧
      (truthyS f.format_note = false → truthyN f.height = true →
        qualityLabelApp1 f = toString (f.height.getD 0) ++ "p") ∧
      (truthyS f.format_note = false → truthyN f.height = false →
        qualityLabelApp1 f = "N/A") ∧
      (toDescriptorApp f).itag = f.format_id ∧
      (toDescriptor1 f).itag = f.format_id := by
  intro f
  refine ⟨?_, ?_, ?_, ?_, ?_, ?_, ?_, ?_, rfl, rfl⟩
  · intro h1 h2
    simp [qualityLabelApp, pyOrS, h1, h2]
  · intro h1 h2
    have hpy : pyOrS f.format_note f.quality = f.format_note := by simp [pyOrS, h1]
    by_cases hE : pyStripStr (replaceAllStr (f.format_note.getD "") "-DASH" "") = ""
    · have ht : truthyS (some (pyStripStr (replaceAllStr (f.format_note.getD "") "-DASH" ""))) = false := by
        simp [truthyS, hE]
      simp [qualityLabelApp, hpy, h1, h2, ht, hE]
      decide
    · have ht : truthyS (some (pyStripStr (replaceAllStr (f.format_note.getD "") "-DASH" ""))) = true := by
        simp [truthyS, hE]
      simp [qualityLabelApp, hpy, h1, h2, ht, hE]
  · intro h1 h2 h3
    simp [qualityLabelApp, pyOrS, h1, h2, h3]
  · intro h1 h2 h3
    have hpy : pyOrS f.format_note f.quality = f.quality := by simp [pyOrS, h1]
    by_cases hE : pyStripStr (replaceAllStr (f.quality.getD "") "-DASH" "") = ""
    · have ht : truthyS (some (pyStripStr (replaceAllStr (f.quality.getD "") "-DASH" ""))) = false := by
        simp [truthyS, hE]
      simp [qualityLabelApp, hpy, h2, h3, ht, hE]
      decide
    · have ht : truthyS (some (pyStripStr (replaceAllStr (f.quality.getD "") "-DASH" ""))) = true := by
        simp [truthyS, hE]
      simp [qualityLabelApp, hpy, h2, h3, ht, hE]
  · intro h1 h2
    simp [qualityLabelApp, pyOrS, h1, h2]
  · intro h1
    simp [qualityLabelApp1, h1]
  · intro h1 h2
    simp [qualityLabelApp1, h1, h2]
  · intro h1 h2
    simp [qualityLabelApp1, h1, h2]

/-- Witness for the amended C7 at concrete raw entries: a plain note,
a note carrying the hyphenated DASH marker that gets stripped, and
the src/app1.py chain on the plain note. -/
theorem c7_amended_label_chain_witness :
    qualityLabelApp { format_note := some "720p60" } = "720p60" ∧
    qualityLabelApp { format_note := some "720p-DASH" } = "720p" ∧
    qualityLabelApp1 { format_note := some "720p60" } = "720p60" :=
  ⟨(c7_amended_label_chain { format_note := some "720p60" }).1
      (by decide) (by decide),
   (c7_amended_label_chain { format_note := some "720p-DASH" }).2.1
      (by decide) (by decide),
   (c7_amended_label_chain { format_note := some "720p60" }).2.2.2.2.2.1
      (by decide)⟩

/-- A list is a prefix of itself. -/
theorem isPrefixOf_self : ∀ l : List Char, l.isPrefixOf l = true := by
  intro l
  induction l with
  | nil => rfl
  | cons a t ih => simp [List.isPrefixOf, ih]

/-- A list occurs as a substring at the end of any extension of
itself to the left. -/
theorem containsSubChars_append (a b : List Char) :
    containsSubChars b (a ++ b) = true := by
  induction a with
  | nil =>
    cases b with
    | nil => rfl
    | cons c t =>
      simp only [List.nil_append, containsSubChars]
      rw [isPrefixOf_self]
      simp
  | cons x a' ih =>
    simp only [List.cons_append, containsSubChars, List.append_eq, ih, Bool.or_true]

/-- A string occurs inside any string extending it to the left. -/
theorem containsSub_append (pre m : String) : containsSub (pre ++ m) m = true := by
  rcases pre with ⟨dp⟩
  rcases m with ⟨dm⟩
  exact containsSubChars_append dp dm

/-- Lists of characters of an appended string. -/
theorem toList_append (a b : String) : (a ++ b).toList = a.toList ++ b.toList := by
  rcases a with ⟨da⟩
  rcases b with ⟨db⟩
  rfl

/-- The first line of a failure text holds no newline. -/
theorem newline_not_mem_firstLine (e : String) : '\n' ∉ (firstLine e).toList := by
  intro h
  have h1 : '\n' ∈ e.toList.takeWhile (fun c => c != '\n') := h
  have h2 := @List.mem_takeWhile_imp Char (fun c => c != '\n') e.toList '\n' h1
  simp at h2

/-- Claim C8 amended: the src/app1.py classifier handle_ydl_error
maps any failure text whose first line holds a restriction marker to
the fixed user-safe restricted message, any remaining text holding
the unsupported-URL marker to the fixed unsupported message, and
every other failure to a generic message that includes the first line
of the failure text, and no such output holds a newline, so a
multi-line stack trace is never surfaced. The inline src/app.py
classifier instead recognizes only the marker Sign in to confirm,
mapped to a fixed sign-in detail, and wraps every other failure,
unsupported-URL ones and the other restriction markers included, in
the generic message carrying the first line, again without a
newline. -/
theorem c8_classifier_taxonomy :
    ∀ e : String,
      (containsAnyMarker (firstLine e) = true →
        handle_ydl_error e = restrictedDetail) ∧
      (containsAnyMarker (firstLine e) = false →
        containsSub (firstLine e) "Unsupported URL" = true →
        handle_ydl_error e = "Unsupported URL. Please check the link.") ∧
      (containsAnyMarker (firstLine e) = false →
        containsSub (firstLine e) "Unsupported URL" = false →
        handle_ydl_error e = "Failed to process video: " ++ firstLine e ∧
        containsSub (handle_ydl_error e) (firstLine e) = true) ∧
      '\n' ∉ (handle_ydl_error e).toList ∧
      (containsSub (firstLine e) "Sign in to confirm" = true →
        classifyApp e = FResp.err 500
          "Video requires sign-in (e.g., age-gated). Your server cannot access it without a cookie session.") ∧
      (containsSub (firstLine e) "Sign in to confirm" = false →
        classifyApp e = FResp.err 500 ("Failed to fetch video info: " ++ firstLine e) ∧
        '\n' ∉ ("Failed to fetch video info: " ++ firstLine e).toList) := by
  intro e
  refine ⟨?_, ?_, ?_, ?_, ?_, ?_⟩
  · intro h
    simp [handle_ydl_error, h]
  · intro h1 h2
    simp [handle_ydl_error, h1, h2]
  · intro h1 h2
    have he : handle_ydl_error e = "Failed to process video: " ++ firstLine e := by
      simp [handle_ydl_error, h1, h2]
    refine ⟨he, ?_⟩
    rw [he]
    exact containsSub_append _ _
  · by_cases h1 : containsAnyMarker (firstLine e) = true
    · simp only [handle_ydl_error, h1, if_true]
      decide
    · rw [Bool.not_eq_true] at h1
      by_cases h2 : containsSub (firstLine e) "Unsupported URL" = true
      · simp only [handle_ydl_error, h1, h2, Bool.false_eq_true, if_false, if_true]
        decide
      · rw [Bool.not_eq_true] at h2
        have he : handle_ydl_error e = "Failed to process video: " ++ firstLine e := by
          simp [handle_ydl_error, h1, h2]
        rw [he]
        intro hmem
        rw [toList_append] at hmem
        rcases List.mem_append.mp hmem with hh | hh
        · revert hh
          decide
        · exact newline_not_mem_firstLine e hh
  · intro h
    simp [classifyApp, h]
  · intro h
    refine ⟨by simp [classifyApp, h], ?_⟩
    intro hmem
    rw [toList_append] at hmem
    rcases List.mem_append.mp hmem with hh | hh
    · revert hh
      decide
    · exact newline_not_mem_firstLine e hh

/-- Claim C8 counterexample: the src/app.py classifier has no
distinct unsupported-source kind and matches only one restriction
marker: a failure text holding the unsupported-URL marker and one
holding the Login required restriction marker are both wrapped in the
same generic message shape an unmatched failure receives, whereas the
src/app1.py classifier does answer the unsupported-URL marker with
its dedicated message. -/
theorem c8_classifier_counterexample :
    classifyApp "Unsupported URL: x"
      = FResp.err 500 "Failed to fetch video info: Unsupported URL: x" ∧
    classifyApp "Login required"
      = FResp.err 500 "Failed to fetch video info: Login required" ∧
    classifyApp "boom"
      = FResp.err 500 "Failed to fetch video info: boom" ∧
    handle_ydl_error "Unsupported URL: x" = "Unsupported URL. Please check the link." := by
  refine ⟨by decide, by decide, by decide, by decide⟩

/-- Witness for C8 at concrete failure texts: a restricted one and an
unmatched one for each classifier. -/
theorem c8_classifier_taxonomy_witness :
    handle_ydl_error "ERROR: Sign in to confirm\nstack" = restrictedDetail ∧
    handle_ydl_error "boom\ntrace"
      = "Failed to process video: " ++ firstLine "boom\ntrace" ∧
    containsSub (handle_ydl_error "boom\ntrace") (firstLine "boom\ntrace") = true ∧
    classifyApp "Sign in to confirm your age\nstack"
      = FResp.err 500
          "Video requires sign-in (e.g., age-gated). Your server cannot access it without a cookie session." ∧
    classifyApp "boom2\ntrace"
      = FResp.err 500 ("Failed to fetch video info: " ++ firstLine "boom2\ntrace") :=
  ⟨(c8_classifier_taxonomy "ERROR: Sign in to confirm\nstack").1 (by decide),
   ((c8_classifier_taxonomy "boom\ntrace").2.2.1 (by decide) (by decide)).1,
   ((c8_classifier_taxonomy "boom\ntrace").2.2.1 (by decide) (by decide)).2,
   (c8_classifier_taxonomy "Sign in to confirm your age\nstack").2.2.2.2.1 (by decide),
   ((c8_classifier_taxonomy "boom2\ntrace").2.2.2.2.2 (by decide)).1⟩

/-- Flattening the chunks reassembles the payload whenever the chunk
size is positive and the fuel covers the payload length. -/
theorem chunksOfAux_flatten (n : Nat) (hn : 0 < n) :
    ∀ (fuel : Nat) (l : List Nat), l.length ≤ fuel →
      (chunksOfAux n fuel l).flatten = l := by
  intro fuel
  induction fuel with
  | zero =>
    intro l hl
    have h0 : l = [] := List.eq_nil_of_length_eq_zero (Nat.le_zero.mp hl)
    subst h0
    rfl
  | succ fuel ih =>
    intro l hl
    cases l with
    | nil => rfl
    | cons c rest =>
      simp only [chunksOfAux, List.flatten_cons]
      rw [ih]
      · exact List.take_append_drop n (c :: rest)
      · simp only [List.length_drop, List.length_cons] at *
        omega

/-- Every chunk produced by the splitter is non-empty and bounded by
the chunk size. -/
theorem chunksOfAux_mem (n : Nat) (hn : 0 < n) :
    ∀ (fuel : Nat) (l : List Nat) (c : List Nat), c ∈ chunksOfAux n fuel l →
      0 < c.length ∧ c.length ≤ n := by
  intro fuel
  induction fuel with
  | zero =>
    intro l c h
    simp [chunksOfAux] at h
  | succ fuel ih =>
    intro l c h
    cases l with
    | nil => simp [chunksOfAux] at h
    | cons a rest =>
      simp only [chunksOfAux, List.mem_cons] at h
      rcases h with rfl | h
      · have h1 : (List.take n (a :: rest)).length = min n (rest.length + 1) := by
          simp [List.length_take]
        constructor
        · rw [h1]; omega
        · rw [h1]; omega
      · exact ih (List.drop n (a :: rest)) c h

/-- Claim C9: the relay chunk size is fixed at 16384 bytes, inside
the recommended 16 KiB to 64 KiB range; every chunk yielded to the
client is non-empty and holds at most CHUNK_SIZE bytes, and the
yielded chunks concatenate to exactly the payload, so the generator
works on one bounded chunk at a time and never materializes the whole
payload as a single buffer. -/
theorem c9_relay_bounded_chunks :
    (16 * 1024 ≤ CHUNK_SIZE ∧ CHUNK_SIZE ≤ 64 * 1024) ∧
    ∀ payload : List Nat,
      (iterfile payload).flatten = payload ∧
      ∀ c ∈ iterfile payload, 0 < c.length ∧ c.length ≤ CHUNK_SIZE := by
  refine ⟨⟨by decide, by decide⟩, ?_⟩
  intro payload
  have hmem : ∀ c ∈ iter_content payload, 0 < c.length ∧ c.length ≤ CHUNK_SIZE := by
    intro c hc
    exact chunksOfAux_mem CHUNK_SIZE (by decide) payload.length payload c hc
  have hfilter : iterfile payload = iter_content payload := by
    unfold iterfile
    apply List.filter_eq_self.mpr
    intro c hc
    have hpos := (hmem c hc).1
    cases c with
    | nil => simp at hpos
    | cons a t => rfl
  constructor
  · rw [hfilter]
    exact chunksOfAux_flatten CHUNK_SIZE (by decide) payload.length payload (le_refl _)
  · intro c hc
    rw [hfilter] at hc
    exact hmem c hc

/-- Witness for C9 at a three-byte payload. -/
theorem c9_relay_bounded_chunks_witness :
    (iterfile [1, 2, 3]).flatten = [1, 2, 3] ∧
    (0 < ([1, 2, 3] : List Nat).length ∧ ([1, 2, 3] : List Nat).length ≤ CHUNK_SIZE) :=
  ⟨(c9_relay_bounded_chunks.2 [1, 2, 3]).1,
   (c9_relay_bounded_chunks.2 [1, 2, 3]).2 [1, 2, 3] (by decide)⟩
